import Mathlib

/-!
Verification of the data-access-and-audit subsystem of the apartment
management system (`tt_final.py`).

The persistent store is modelled as an in-memory record of the five tables
(Apartment, Tenant, Payment, Maintenance, Audit_Tenant).  Each data-access
operation of the source is embedded as a pure function on this state; the
operations that the source wraps in an explicit transaction are additionally
embedded over a connection state (committed snapshot + uncommitted working
copy) together with a failure oracle, so that rollback behaviour can be
stated for every failure point.

SQL NULL is modelled with `Option`: a column the source's INSERT statements
omit (Tenant.due_amount, Maintenance.status) starts out as `none`, and the
SQL comparison `status != 'Completed'` is false on NULL (three-valued
logic), as in the source's Oracle backend.  The server-assigned
`change_date` of Audit_Tenant (schema default, per the spec's schema) is
passed in as an explicit `now` argument.
-/

/-- A row of the Apartment table (`apartment_id, apartment_name, address,
num_of_rooms, rent`, as selected by `ListApartmentsCommand`). -/
structure ApartmentRow where
  apartment_id : Int
  apartment_name : String
  address : String
  num_of_rooms : Int
  rent : Int
deriving DecidableEq, Repr

/-- A row of the Tenant table.  `due_amount` is nullable: the INSERT in
`AddTenantCommand.execute` does not set it. -/
structure TenantRow where
  house_no : String
  tenant_name : String
  phone_number : String
  apartment_id : Int
  move_in_date : String
  due_amount : Option Int
deriving DecidableEq, Repr

/-- A row of the Payment table as inserted by `TenantApp.make_payment`. -/
structure PaymentRow where
  house_no : String
  payment_date : String
  amount_paid : Int
  payment_method : String
deriving DecidableEq, Repr

/-- A row of the Maintenance table.  `status` is nullable: the INSERT in
`TenantApp.request_maintenance` does not set it (the deployed schema may
default it to an open marker). -/
structure MaintenanceRow where
  apartment_id : String
  house_no : String
  issue_description : String
  request_date : Nat
  status : Option String
deriving DecidableEq, Repr

/-- A row of the Audit_Tenant table.  For DELETE events only `house_no` and
`action` are written, so the tenant columns are nullable.  `change_date` is
the server-assigned insertion date. -/
structure AuditRow where
  house_no : String
  tenant_name : Option String
  phone_number : Option String
  apartment_id : Option Int
  move_in_date : Option String
  action : String
  change_date : Nat
deriving DecidableEq, Repr

/-- The persistent store: the five tables of the schema. -/
structure DB where
  apartments : List ApartmentRow
  tenants : List TenantRow
  payments : List PaymentRow
  maintenance : List MaintenanceRow
  audit : List AuditRow
deriving DecidableEq, Repr

/-- The `data` dictionary handed to `AuditLogger.update`: `house_no` is
always present; the remaining keys are present for INSERT/UPDATE events and
absent for the DELETE notification sent by `TenantManager.delete_tenant`. -/
structure EventData where
  house_no : String
  tenant_name : Option String
  phone_number : Option String
  apartment_id : Option Int
  move_in_date : Option String
deriving DecidableEq, Repr

/-- `AuditLogger.update` (tt_final.py 202-225): for a DELETE event insert
only `(house_no, action)` into Audit_Tenant; for any other event insert the
full tenant snapshot.  `now` is the server-assigned `change_date`. -/
def AuditLogger.update (db : DB) (now : Nat) (event_type : String) (data : EventData) : DB :=
  if event_type = "DELETE" then
    { db with audit := db.audit ++ [⟨data.house_no, none, none, none, none, event_type, now⟩] }
  else
    { db with audit := db.audit ++
        [⟨data.house_no, data.tenant_name, data.phone_number, data.apartment_id,
          data.move_in_date, event_type, now⟩] }

/-- `AddTenantCommand.execute` (tt_final.py 87-105): INSERT INTO Tenant; a
duplicate `house_no` violates the primary key, the DatabaseError is caught,
the transaction is rolled back and the failure is only printed — the state
is unchanged and no exception escapes. -/
def AddTenantCommand.execute (db : DB) (house_no tenant_name phone_number : String)
    (apartment_id : Int) (move_in_date : String) : DB :=
  if db.tenants.any (fun t => decide (t.house_no = house_no)) then db
  else
    { db with tenants := db.tenants ++
        [⟨house_no, tenant_name, phone_number, apartment_id, move_in_date, none⟩] }

/-- `UpdateTenantCommand.execute` (tt_final.py 116-135): UPDATE Tenant SET
name/phone/apartment/move-in date WHERE house_no matches (zero matching
rows still counts as success, and `due_amount` is untouched). -/
def UpdateTenantCommand.execute (db : DB) (house_no tenant_name phone_number : String)
    (apartment_id : Int) (move_in_date : String) : DB :=
  { db with tenants := db.tenants.map fun t =>
      if t.house_no = house_no then
        { t with tenant_name := tenant_name, phone_number := phone_number,
                 apartment_id := apartment_id, move_in_date := move_in_date }
      else t }

/-- `DeleteTenantCommand.execute` (tt_final.py 143-158): DELETE FROM Tenant
WHERE house_no matches. -/
def DeleteTenantCommand.execute (db : DB) (house_no : String) : DB :=
  { db with tenants := db.tenants.filter fun t => decide (t.house_no ≠ house_no) }

/-- `TenantManager.add_tenant` (tt_final.py 245-254) with the observer list
as registered in `__main__` (exactly one `AuditLogger`, lines 1036-1038):
run the command, then notify the observer with an INSERT event built from
the command's arguments — unconditionally, whether or not the INSERT
succeeded, because `execute` swallows its DatabaseError. -/
def TenantManager.add_tenant (db : DB) (now : Nat) (house_no tenant_name phone_number : String)
    (apartment_id : Int) (move_in_date : String) : DB :=
  AuditLogger.update
    (AddTenantCommand.execute db house_no tenant_name phone_number apartment_id move_in_date)
    now "INSERT" ⟨house_no, some tenant_name, some phone_number, some apartment_id, some move_in_date⟩

/-- `TenantManager.update_tenant` (tt_final.py 256-265): run the UPDATE
command, then notify the observer with an UPDATE event. -/
def TenantManager.update_tenant (db : DB) (now : Nat) (house_no tenant_name phone_number : String)
    (apartment_id : Int) (move_in_date : String) : DB :=
  AuditLogger.update
    (UpdateTenantCommand.execute db house_no tenant_name phone_number apartment_id move_in_date)
    now "UPDATE" ⟨house_no, some tenant_name, some phone_number, some apartment_id, some move_in_date⟩

/-- `TenantManager.delete_tenant` (tt_final.py 267-272): run the DELETE
command, then notify the observer with a DELETE event that carries only the
house number. -/
def TenantManager.delete_tenant (db : DB) (now : Nat) (house_no : String) : DB :=
  AuditLogger.update (DeleteTenantCommand.execute db house_no)
    now "DELETE" ⟨house_no, none, none, none, none⟩

/-- `AdminApp.fetch_tenant_details` (tt_final.py 754-776): SELECT the tenant
row for `house_no` and package it as the audit `data` dictionary; `none`
when no such tenant exists. -/
def AdminApp.fetch_tenant_details (db : DB) (house_no : String) : Option EventData :=
  match db.tenants.find? (fun t => decide (t.house_no = house_no)) with
  | none => none
  | some t => some ⟨house_no, some t.tenant_name, some t.phone_number,
      some t.apartment_id, some t.move_in_date⟩

/-- `AdminApp.delete_tenant` (tt_final.py 728-752): fetch the pre-delete
snapshot (abort if the tenant does not exist), call `AuditLogger.update`
directly with a DELETE event, and then call `TenantManager.delete_tenant`,
which deletes the row and notifies the registered observer — writing a
second DELETE audit row. -/
def AdminApp.delete_tenant (db : DB) (now : Nat) (house_no : String) : DB :=
  match AdminApp.fetch_tenant_details db house_no with
  | none => db
  | some data =>
      TenantManager.delete_tenant (AuditLogger.update db now "DELETE" data) now house_no

/-- `ListApartmentsCommand.execute` (tt_final.py 53-75): `none` models the
Python `None` returned both when there is no connection and when the query
raises; otherwise the full Apartment table is returned (the empty table
yields the empty list, not `None`).  `queryFails` is the failure oracle for
the SELECT. -/
def ListApartmentsCommand.execute (conn : Option DB) (queryFails : Bool) :
    Option (List ApartmentRow) :=
  match conn with
  | none => none
  | some db => if queryFails then none else some db.apartments

/-- The SQL predicate `status != 'Completed'` under three-valued logic: a
NULL status compares as unknown, so the row is not selected. -/
def sqlNe : Option String → String → Bool
  | none, _ => false
  | some s, v => decide (s ≠ v)

/-- The INSERT INTO Payment of `TenantApp.make_payment` (tt_final.py
447-451). -/
def insertPayment (db : DB) (house_no payment_date : String) (amount_paid : Int)
    (payment_method : String) : DB :=
  { db with payments := db.payments ++ [⟨house_no, payment_date, amount_paid, payment_method⟩] }

/-- The `UPDATE Tenant SET due_amount = due_amount - :1` of
`TenantApp.make_payment` (tt_final.py 452-457); on a NULL balance the SQL
subtraction yields NULL again, i.e. `Option.map`. -/
def decrementDue (db : DB) (house_no : String) (amount_paid : Int) : DB :=
  { db with tenants := db.tenants.map fun t =>
      if t.house_no = house_no then { t with due_amount := t.due_amount.map (· - amount_paid) }
      else t }

/-- `TenantApp.make_payment` (tt_final.py 441-466), failure-free run: SELECT
the tenant; if absent, warn and write nothing; otherwise INSERT the Payment
row, decrement the due amount, and commit both. -/
def TenantApp.make_payment (db : DB) (house_no payment_date : String) (amount_paid : Int)
    (payment_method : String) : DB :=
  match db.tenants.find? (fun t => decide (t.house_no = house_no)) with
  | none => db
  | some _ => decrementDue (insertPayment db house_no payment_date amount_paid payment_method)
      house_no amount_paid

/-- The payment strategies of tt_final.py 9-23; each variant only prints a
confirmation, touching no persistent state. -/
inductive PaymentStrategy where
  | creditCard
  | cash
  | bankTransfer
deriving DecidableEq, Repr

/-- The method string the GUI menu associates with each strategy
(tt_final.py 416-431). -/
def PaymentStrategy.methodName : PaymentStrategy → String
  | .creditCard => "Credit Card"
  | .cash => "Cash"
  | .bankTransfer => "Bank Transfer"

/-- The confirmation message printed by `process_payment` of each strategy
(tt_final.py 13-23) — its only effect. -/
def PaymentStrategy.confirmation (s : PaymentStrategy) (house_no payment_date : String)
    (amount_paid : Int) : String :=
  let kind := match s with
    | .creditCard => "credit card"
    | .cash => "cash"
    | .bankTransfer => "bank transfer"
  "Processing " ++ kind ++ " payment of " ++ toString amount_paid ++ " for house " ++
    house_no ++ " on " ++ payment_date ++ "."

/-- The inner `process_payment` of `TenantApp.make_payment_gui` (tt_final.py
421-437): pick the strategy for the chosen method, let it print its
confirmation, then persist via `TenantApp.make_payment` with that method
string.  Only the persistent state is returned. -/
def TenantApp.process_payment (db : DB) (s : PaymentStrategy) (house_no payment_date : String)
    (amount_paid : Int) : DB :=
  TenantApp.make_payment db house_no payment_date amount_paid s.methodName

/-- `AdminApp.check_complaint` (tt_final.py 886-896): COUNT of Maintenance
rows for the (apartment_id, house_no) pair, compared with zero. -/
def AdminApp.check_complaint (db : DB) (apartment_id house_no : String) : Bool :=
  decide (0 < (db.maintenance.filter fun r =>
    decide (r.apartment_id = apartment_id ∧ r.house_no = house_no)).length)

/-- `AdminApp.incomplete_complaint` (tt_final.py 898-908): COUNT of
Maintenance rows of the pair with `status != 'Completed'` (NULL status not
counted, per SQL), compared with zero. -/
def AdminApp.incomplete_complaint (db : DB) (apartment_id house_no : String) : Bool :=
  decide (0 < (db.maintenance.filter fun r =>
    decide (r.apartment_id = apartment_id ∧ r.house_no = house_no) &&
      sqlNe r.status "Completed").length)

/-- The issue descriptions selected for the pair in `AdminApp.provide_service`
(tt_final.py 851-854). -/
def pairIssues (db : DB) (apartment_id house_no : String) : List String :=
  (db.maintenance.filter fun r =>
    decide (r.apartment_id = apartment_id ∧ r.house_no = house_no)).map
    (·.issue_description)

/-- The `UPDATE Maintenance SET status ='Completed'` of
`AdminApp.provide_service` (tt_final.py 856-860): every row of the pair,
whatever its previous status. -/
def completeMaintenance (db : DB) (apartment_id house_no : String) : DB :=
  { db with maintenance := db.maintenance.map fun r =>
      if r.apartment_id = apartment_id ∧ r.house_no = house_no then
        { r with status := some "Completed" }
      else r }

/-- The `UPDATE Tenant SET due_amount = due_amount + 100` of
`AdminApp.provide_service` (tt_final.py 861-866). -/
def addServiceFee (db : DB) (house_no : String) : DB :=
  { db with tenants := db.tenants.map fun t =>
      if t.house_no = house_no then { t with due_amount := t.due_amount.map (· + 100) }
      else t }

/-- The distinct outcomes returned by `AdminApp.provide_service`
(tt_final.py 845-884), one constructor per returned message (`error` for
the `None` returned after `error_callback`). -/
inductive ServiceResult where
  | completed (issues : List String)
  | noIssues
  | alreadyCompleted
  | noComplaint
  | error
deriving DecidableEq, Repr

/-- `AdminApp.provide_service` (tt_final.py 845-884), failure-free run: if
the pair has any complaint and at least one not-yet-completed one, collect
the pair's issues, mark every row of the pair completed, charge the 100
fee, and commit; with complaints but none incomplete report "already
completed"; with no complaint at all report "no complaint registered". -/
def AdminApp.provide_service (db : DB) (apartment_id house_no : String) : DB × ServiceResult :=
  if AdminApp.check_complaint db apartment_id house_no then
    if AdminApp.incomplete_complaint db apartment_id house_no then
      let issues := pairIssues db apartment_id house_no
      if issues.isEmpty then (db, ServiceResult.noIssues)
      else (addServiceFee (completeMaintenance db apartment_id house_no) house_no,
            ServiceResult.completed issues)
    else (db, ServiceResult.alreadyCompleted)
  else (db, ServiceResult.noComplaint)

/-- The maximum `change_date` over a list of audit rows, i.e. the SQL
`SELECT MAX(change_date) FROM Audit_Tenant` (on the empty table SQL MAX is
NULL and the enclosing filter selects nothing, which the base value 0
reproduces since filtering the empty table is empty anyway). -/
def maxChangeDate (rows : List AuditRow) : Nat :=
  rows.foldr (fun r m => max r.change_date m) 0

/-- The query of `AdminApp.display_latest_modifications_gui` (tt_final.py
996-1014): every Audit_Tenant row whose `change_date` equals the table-wide
maximum. -/
def AdminApp.display_latest_modifications (db : DB) : List AuditRow :=
  db.audit.filter fun r => decide (r.change_date = maxChangeDate db.audit)

/-- A database connection with an open transaction: the durably committed
state and the uncommitted working copy the cursor's statements act on. -/
structure Conn where
  committed : DB
  pending : DB
deriving DecidableEq, Repr

/-- A fresh connection over a committed state. -/
def Conn.fromDB (db : DB) : Conn := ⟨db, db⟩

/-- `connection.commit()`: the pending writes become durable. -/
def Conn.commit (c : Conn) : Conn := ⟨c.pending, c.pending⟩

/-- `connection.rollback()`: the pending writes are discarded. -/
def Conn.rollback (c : Conn) : Conn := ⟨c.committed, c.committed⟩

/-- `TenantApp.make_payment` (tt_final.py 441-466) over a connection with a
failure oracle: statement 0 is the SELECT, 1 the Payment INSERT, 2 the
due_amount UPDATE.  A failing statement raises DatabaseError, caught by the
handler that rolls the transaction back; on full success both writes are
committed together.  Returns the connection and whether a commit happened. -/
def TenantApp.make_payment_steps (c : Conn) (fails : Nat → Bool)
    (house_no payment_date : String) (amount_paid : Int) (payment_method : String) :
    Conn × Bool :=
  if fails 0 then (c.rollback, false)
  else
    match c.pending.tenants.find? (fun t => decide (t.house_no = house_no)) with
    | none => (c, false)
    | some _ =>
      if fails 1 then (c.rollback, false)
      else
        let c1 : Conn := ⟨c.committed,
          insertPayment c.pending house_no payment_date amount_paid payment_method⟩
        if fails 2 then (c1.rollback, false)
        else
          let c2 : Conn := ⟨c1.committed, decrementDue c1.pending house_no amount_paid⟩
          (c2.commit, true)

/-- `AdminApp.check_complaint` over a connection: its SELECT has its own
handler that turns a DatabaseError into `False` (tt_final.py 892-894). -/
def AdminApp.check_complaint_run (c : Conn) (fail : Bool) (apartment_id house_no : String) :
    Bool :=
  if fail then false else AdminApp.check_complaint c.pending apartment_id house_no

/-- `AdminApp.incomplete_complaint` over a connection: its SELECT likewise
turns a DatabaseError into `False` (tt_final.py 904-906). -/
def AdminApp.incomplete_complaint_run (c : Conn) (fail : Bool)
    (apartment_id house_no : String) : Bool :=
  if fail then false else AdminApp.incomplete_complaint c.pending apartment_id house_no

/-- `AdminApp.provide_service` (tt_final.py 845-884) over a connection with
a failure oracle: statement 0 is `check_complaint`'s SELECT, 1 is
`incomplete_complaint`'s SELECT (each failing into `False`), 2 the issue
SELECT, 3 the Maintenance UPDATE, 4 the Tenant UPDATE; a failure in 2-4
raises into the handler that rolls back; on full success both updates are
committed together. -/
def AdminApp.provide_service_steps (c : Conn) (fails : Nat → Bool)
    (apartment_id house_no : String) : Conn × ServiceResult :=
  if AdminApp.check_complaint_run c (fails 0) apartment_id house_no then
    if AdminApp.incomplete_complaint_run c (fails 1) apartment_id house_no then
      if fails 2 then (c.rollback, ServiceResult.error)
      else
        let issues := pairIssues c.pending apartment_id house_no
        if issues.isEmpty then (c, ServiceResult.noIssues)
        else if fails 3 then (c.rollback, ServiceResult.error)
        else
          let c1 : Conn := ⟨c.committed, completeMaintenance c.pending apartment_id house_no⟩
          if fails 4 then (c1.rollback, ServiceResult.error)
          else
            let c2 : Conn := ⟨c1.committed, addServiceFee c1.pending house_no⟩
            (c2.commit, ServiceResult.completed issues)
    else (c, ServiceResult.alreadyCompleted)
  else (c, ServiceResult.noComplaint)

/-! ## Concrete states used by the closed theorems -/

/-- A store holding the single tenant H1, with an empty audit log. -/
def dbC1 : DB := ⟨[], [⟨"H1", "Alice", "100", 1, "2023-01-01", some 50⟩], [], [], []⟩

/-- A store holding the single tenant H2, with an empty audit log. -/
def dbC2 : DB := ⟨[], [⟨"H2", "Bob", "200", 1, "2022-06-01", some 10⟩], [], [], []⟩

/-- A store holding the single tenant H3, with an empty audit log. -/
def dbC3 : DB := ⟨[], [⟨"H3", "Carol", "400", 3, "2021-03-03", some 75⟩], [], [], []⟩

/-- C1: the claim says every successful tenant mutation writes exactly one
Audit_Tenant row, never more than one.  Deleting the existing tenant H1
through the admin flow succeeds (the row is gone) but appends TWO audit
rows for the one mutation: `AdminApp.delete_tenant` logs the DELETE
directly and `TenantManager.delete_tenant` then notifies the registered
`AuditLogger` a second time. -/
theorem c1_successful_delete_writes_two_audit_rows :
    (AdminApp.delete_tenant dbC1 5 "H1").tenants = [] ∧
    ((AdminApp.delete_tenant dbC1 5 "H1").audit.filter
        fun r => decide (r.action = "DELETE" ∧ r.house_no = "H1")).length = 2 := by
  decide

/-- C2: the claim says an AddTenant whose house_no duplicates an existing
tenant leaves the Tenant table unchanged and adds no Audit_Tenant row.
Re-adding house H2 indeed leaves the Tenant table unchanged, but
`TenantManager.add_tenant` notifies the audit observer unconditionally
(the command swallows the constraint violation), so an INSERT audit row for
a failed insert is still written. -/
theorem c2_duplicate_add_still_writes_audit_row :
    (TenantManager.add_tenant dbC2 9 "H2" "Eve" "300" 2 "2024-04-04").tenants = dbC2.tenants ∧
    (TenantManager.add_tenant dbC2 9 "H2" "Eve" "300" 2 "2024-04-04").audit =
      [⟨"H2", some "Eve", some "300", some 2, some "2024-04-04", "INSERT", 9⟩] := by
  decide

/-- C3: the claim says DeleteTenant(H) removes the Tenant(H) row and adds
exactly ONE audit row with action DELETE, house_no H and null tenant
columns.  Deleting the existing tenant H3 removes the row, and each audit
row written does carry action DELETE, house_no H3 and null tenant columns —
but two such rows are written, not one. -/
theorem c3_delete_removes_row_but_audits_twice :
    (AdminApp.delete_tenant dbC3 11 "H3").tenants = [] ∧
    (AdminApp.delete_tenant dbC3 11 "H3").audit =
      [⟨"H3", none, none, none, none, "DELETE", 11⟩,
       ⟨"H3", none, none, none, none, "DELETE", 11⟩] := by
  decide

/-- The persisted payment columns other than the payment method. -/
def PaymentRow.withoutMethod (r : PaymentRow) : String × String × Int :=
  (r.house_no, r.payment_date, r.amount_paid)

/-- C8: for every payment input and every pair of payment strategies, the
persistent state after submitting the payment is identical except for the
`payment_method` column of the inserted Payment row: the strategy only
prints a confirmation before `TenantApp.make_payment` persists the data. -/
theorem c8_strategy_choice_persists_identically (db : DB) (s1 s2 : PaymentStrategy)
    (house_no payment_date : String) (amount_paid : Int) :
    (TenantApp.process_payment db s1 house_no payment_date amount_paid).apartments
      = (TenantApp.process_payment db s2 house_no payment_date amount_paid).apartments ∧
    (TenantApp.process_payment db s1 house_no payment_date amount_paid).tenants
      = (TenantApp.process_payment db s2 house_no payment_date amount_paid).tenants ∧
    (TenantApp.process_payment db s1 house_no payment_date amount_paid).maintenance
      = (TenantApp.process_payment db s2 house_no payment_date amount_paid).maintenance ∧
    (TenantApp.process_payment db s1 house_no payment_date amount_paid).audit
      = (TenantApp.process_payment db s2 house_no payment_date amount_paid).audit ∧
    (TenantApp.process_payment db s1 house_no payment_date amount_paid).payments.map
        PaymentRow.withoutMethod
      = (TenantApp.process_payment db s2 house_no payment_date amount_paid).payments.map
        PaymentRow.withoutMethod := by
  unfold TenantApp.process_payment TenantApp.make_payment
  cases hf : db.tenants.find? (fun t => decide (t.house_no = house_no)) <;>
    simp [insertPayment, decrementDue, PaymentRow.withoutMethod]

/-- C9: ListApartments returns the Apartment rows, the empty sequence (not
an error) on an empty table, and `none` — distinguishable from the empty
sequence — when there is no connection or the query fails. -/
theorem c9_list_apartments_contract (db : DB) (b : Bool) :
    ListApartmentsCommand.execute (some db) false = some db.apartments ∧
    ListApartmentsCommand.execute (some { db with apartments := [] }) false = some [] ∧
    ListApartmentsCommand.execute (some db) true = none ∧
    ListApartmentsCommand.execute none b = none ∧
    ListApartmentsCommand.execute (some db) true ≠
      ListApartmentsCommand.execute (some { db with apartments := [] }) false := by
  refine ⟨rfl, rfl, rfl, rfl, ?_⟩
  simp [ListApartmentsCommand.execute]

/-! ## Latest-audit-entries query (C7) -/

/-- Unfolding `maxChangeDate` one row at a time. -/
theorem maxChangeDate_cons (a : AuditRow) (tl : List AuditRow) :
    maxChangeDate (a :: tl) = max a.change_date (maxChangeDate tl) := rfl

/-- Every row's change date is bounded by the table maximum. -/
theorem le_maxChangeDate {rows : List AuditRow} {r : AuditRow} (hr : r ∈ rows) :
    r.change_date ≤ maxChangeDate rows := by
  induction rows with
  | nil => cases hr
  | cons a tl ih =>
    rcases List.mem_cons.mp hr with h | h
    · rw [h, maxChangeDate_cons]; exact le_max_left _ _
    · exact le_trans (ih h) (maxChangeDate_cons a tl ▸ le_max_right _ _)

/-- On a nonempty table the maximum change date is attained by some row. -/
theorem maxChangeDate_attained {rows : List AuditRow} (h : rows ≠ []) :
    ∃ r ∈ rows, r.change_date = maxChangeDate rows := by
  induction rows with
  | nil => exact absurd rfl h
  | cons a tl ih =>
    cases tl with
    | nil => exact ⟨a, List.mem_cons_self a [], by simp [maxChangeDate]⟩
    | cons b tl2 =>
      obtain ⟨r, hr, hmax⟩ := ih (by simp)
      rcases le_total (maxChangeDate (b :: tl2)) a.change_date with hle | hle
      · exact ⟨a, List.mem_cons_self _ _, by rw [maxChangeDate_cons, max_eq_left hle]⟩
      · exact ⟨r, List.mem_cons_of_mem _ hr, by rw [maxChangeDate_cons, max_eq_right hle, hmax]⟩

/-- C7: on a nonempty Audit_Tenant table, the latest-modifications query
returns a nonempty result, containing exactly the rows whose change date
equals the table-wide maximum, and never a row whose change date is earlier
than that of any returned row. -/
theorem c7_latest_audit_entries (db : DB) (hne : db.audit ≠ []) :
    AdminApp.display_latest_modifications db ≠ [] ∧
    (∀ r, r ∈ AdminApp.display_latest_modifications db ↔
      r ∈ db.audit ∧ r.change_date = maxChangeDate db.audit) ∧
    (∀ r ∈ AdminApp.display_latest_modifications db,
      ∀ r' ∈ db.audit, r'.change_date ≤ r.change_date) := by
  have hmem : ∀ r, r ∈ AdminApp.display_latest_modifications db ↔
      r ∈ db.audit ∧ r.change_date = maxChangeDate db.audit := by
    intro r
    simp [AdminApp.display_latest_modifications, List.mem_filter]
  obtain ⟨r0, hr0, hmax⟩ := maxChangeDate_attained hne
  refine ⟨?_, hmem, ?_⟩
  · intro hempty
    have hin := (hmem r0).mpr ⟨hr0, hmax⟩
    rw [hempty] at hin
    cases hin
  · intro r hr r' hr'
    have h1 := (hmem r).mp hr
    calc r'.change_date ≤ maxChangeDate db.audit := le_maxChangeDate hr'
    _ = r.change_date := h1.2.symm

/-- An audit table with two rows sharing the maximal change date 7 and one
earlier row. -/
def dbC7 : DB := ⟨[], [], [], [],
  [⟨"H1", none, none, none, none, "DELETE", 3⟩,
   ⟨"H2", some "Bea", some "11", some 1, some "2024-01-01", "INSERT", 7⟩,
   ⟨"H3", none, none, none, none, "DELETE", 7⟩]⟩

/-- Witness for C7 at the concrete table `dbC7`. -/
theorem c7_latest_audit_entries_witness :
    dbC7.audit ≠ [] ∧ AdminApp.display_latest_modifications dbC7 ≠ [] :=
  ⟨by decide, (c7_latest_audit_entries dbC7 (by decide)).1⟩

/-! ## Payment recording (C4) -/

/-- C4: when tenant H exists and every Tenant row for H carries the balance
`dueBefore`, recording a payment of `amount_paid` appends exactly one
Payment row with those fields and leaves every Tenant row for H with
balance `dueBefore - amount_paid`; when no tenant H exists, the store is
unchanged. -/
theorem c4_record_payment (db : DB) (house_no payment_date payment_method : String)
    (amount_paid dueBefore : Int) :
    ((∃ t ∈ db.tenants, t.house_no = house_no) →
     (∀ t ∈ db.tenants, t.house_no = house_no → t.due_amount = some dueBefore) →
     (TenantApp.make_payment db house_no payment_date amount_paid payment_method).payments
        = db.payments ++ [⟨house_no, payment_date, amount_paid, payment_method⟩] ∧
     ∀ t ∈ (TenantApp.make_payment db house_no payment_date amount_paid payment_method).tenants,
        t.house_no = house_no → t.due_amount = some (dueBefore - amount_paid)) ∧
    ((∀ t ∈ db.tenants, t.house_no ≠ house_no) →
     TenantApp.make_payment db house_no payment_date amount_paid payment_method = db) := by
  constructor
  · intro hex hdue
    obtain ⟨t0, ht0, ht0h⟩ := hex
    obtain ⟨u, hu⟩ : ∃ u, db.tenants.find? (fun t => decide (t.house_no = house_no)) = some u := by
      cases hf : db.tenants.find? (fun t => decide (t.house_no = house_no)) with
      | none =>
        have hnone := List.find?_eq_none.mp hf t0 ht0
        simp [ht0h] at hnone
      | some u => exact ⟨u, rfl⟩
    unfold TenantApp.make_payment
    rw [hu]
    constructor
    · simp [decrementDue, insertPayment]
    · intro t ht hth
      simp only [decrementDue, insertPayment, List.mem_map] at ht
      obtain ⟨t1, ht1, heq⟩ := ht
      by_cases hc : t1.house_no = house_no
      · rw [if_pos hc] at heq
        rw [← heq, hdue t1 ht1 hc]
        rfl
      · rw [if_neg hc] at heq
        rw [← heq] at hth
        exact absurd hth hc
  · intro hnone
    unfold TenantApp.make_payment
    have hfind : db.tenants.find? (fun t => decide (t.house_no = house_no)) = none :=
      List.find?_eq_none.mpr fun t ht => by simp [hnone t ht]
    rw [hfind]

/-- A store with one tenant H4 owing 100, used to witness C4. -/
def dbC4 : DB := ⟨[], [⟨"H4", "Dana", "600", 2, "2024-05-05", some 100⟩], [], [], []⟩

/-- Witness for C4: paying 30 on house H4 appends the Payment row and the
balance of 100 is what the hypothesis requires. -/
theorem c4_record_payment_witness :
    (∃ t ∈ dbC4.tenants, t.house_no = "H4") ∧
    (TenantApp.make_payment dbC4 "H4" "2024-06-01" 30 "Cash").payments
      = dbC4.payments ++ [⟨"H4", "2024-06-01", 30, "Cash"⟩] :=
  ⟨by decide,
   ((c4_record_payment dbC4 "H4" "2024-06-01" "Cash" 30 100).1 (by decide) (by decide)).1⟩

/-! ## Maintenance service (C6, C10) -/

/-- The only branch of `AdminApp.provide_service` that reports completion is
the one that marks the pair's rows completed and charges the fee. -/
theorem provide_service_completed_eq {db db' : DB} {apartment_id house_no : String}
    {issues : List String}
    (hs : AdminApp.provide_service db apartment_id house_no
      = (db', ServiceResult.completed issues)) :
    db' = addServiceFee (completeMaintenance db apartment_id house_no) house_no := by
  unfold AdminApp.provide_service at hs
  split at hs
  · split at hs
    · cases he : (pairIssues db apartment_id house_no).isEmpty
      · simp only [he, Bool.false_eq_true, if_false, Prod.mk.injEq] at hs
        exact hs.1.symm
      · simp [he] at hs
    · simp at hs
  · simp at hs

/-- After the service updates, every Maintenance row of the pair carries
status Completed, whatever its status was before. -/
theorem completed_after_service (db : DB) (apartment_id house_no : String) :
    ∀ r ∈ (addServiceFee (completeMaintenance db apartment_id house_no) house_no).maintenance,
      r.apartment_id = apartment_id → r.house_no = house_no → r.status = some "Completed" := by
  intro r hr h1 h2
  simp only [addServiceFee, completeMaintenance, List.mem_map] at hr
  obtain ⟨r1, hr1, heq⟩ := hr
  by_cases hc : r1.apartment_id = apartment_id ∧ r1.house_no = house_no
  · rw [if_pos hc] at heq
    rw [← heq]
  · rw [if_neg hc] at heq
    rw [← heq] at h1 h2
    exact absurd ⟨h1, h2⟩ hc

/-- When every Maintenance row of the pair is Completed, the incomplete
count query of `AdminApp.incomplete_complaint` finds nothing. -/
theorem incomplete_false_of_all_completed {db : DB} {apartment_id house_no : String}
    (hall : ∀ r ∈ db.maintenance, r.apartment_id = apartment_id → r.house_no = house_no →
      r.status = some "Completed") :
    AdminApp.incomplete_complaint db apartment_id house_no = false := by
  unfold AdminApp.incomplete_complaint
  rw [decide_eq_false_iff_not, Nat.not_lt, Nat.le_zero, List.length_eq_zero,
    List.filter_eq_nil_iff]
  intro r hr hcontra
  rw [Bool.and_eq_true, decide_eq_true_iff] at hcontra
  obtain ⟨⟨h1, h2⟩, hsql⟩ := hcontra
  rw [hall r hr h1 h2] at hsql
  simp [sqlNe] at hsql

/-- A Maintenance row of the pair makes `AdminApp.check_complaint` true. -/
theorem check_complaint_true_of_pair_mem {db : DB} {apartment_id house_no : String}
    (h : ∃ r ∈ db.maintenance, r.apartment_id = apartment_id ∧ r.house_no = house_no) :
    AdminApp.check_complaint db apartment_id house_no = true := by
  obtain ⟨r, hr, h1, h2⟩ := h
  unfold AdminApp.check_complaint
  rw [decide_eq_true_iff, List.length_pos]
  exact List.ne_nil_of_mem (List.mem_filter.mpr ⟨hr, by simp [h1, h2]⟩)

/-- C10: whenever `AdminApp.provide_service` reports a completed service,
every Maintenance row of the pair in the resulting state has status
Completed (the update ignores the previous status), so the incomplete
check on that pair subsequently finds nothing. -/
theorem c10_service_completes_pair (db db' : DB) (apartment_id house_no : String)
    (issues : List String)
    (hs : AdminApp.provide_service db apartment_id house_no
      = (db', ServiceResult.completed issues)) :
    (∀ r ∈ db'.maintenance, r.apartment_id = apartment_id → r.house_no = house_no →
      r.status = some "Completed") ∧
    AdminApp.incomplete_complaint db' apartment_id house_no = false := by
  have hdb' := provide_service_completed_eq hs
  subst hdb'
  exact ⟨completed_after_service db apartment_id house_no,
    incomplete_false_of_all_completed (completed_after_service db apartment_id house_no)⟩

/-- A store with tenant H0, one open complaint on (A0, H0) and balance 5,
used to witness C10. -/
def dbC10 : DB := ⟨[], [⟨"H0", "Elif", "700", 1, "2024-07-07", some 5⟩], [],
  [⟨"A0", "H0", "broken tap", 1, some "open"⟩], []⟩

/-- The state after servicing (A0, H0) in `dbC10`: the complaint is
Completed and the balance rose by the fee. -/
def dbC10after : DB := ⟨[], [⟨"H0", "Elif", "700", 1, "2024-07-07", some 105⟩], [],
  [⟨"A0", "H0", "broken tap", 1, some "Completed"⟩], []⟩

/-- Witness for C10 at the concrete store `dbC10`. -/
theorem c10_service_completes_pair_witness :
    AdminApp.provide_service dbC10 "A0" "H0" = (dbC10after, ServiceResult.completed ["broken tap"]) ∧
    AdminApp.incomplete_complaint dbC10after "A0" "H0" = false :=
  ⟨by decide,
   (c10_service_completes_pair dbC10 dbC10after "A0" "H0" ["broken tap"] (by decide)).2⟩

/-- C6: with at least one not-yet-completed Maintenance row for the pair
(and tenant H present with balance `dueBefore` throughout), the service
call reports completion with the pair's issue list, marks every Maintenance
row of the pair Completed, raises the balance by exactly 100 (once per
service event), and a second call finds complaints but none incomplete: it
returns the "already completed" outcome — distinct from the "no complaint
registered" outcome and from an error — and changes nothing. -/
theorem c6_complete_maintenance_service (db : DB) (apartment_id house_no : String)
    (dueBefore : Int)
    (hopen : ∃ r ∈ db.maintenance, r.apartment_id = apartment_id ∧ r.house_no = house_no ∧
      sqlNe r.status "Completed" = true)
    (_htenant : ∃ t ∈ db.tenants, t.house_no = house_no)
    (hdue : ∀ t ∈ db.tenants, t.house_no = house_no → t.due_amount = some dueBefore) :
    (AdminApp.provide_service db apartment_id house_no).2
      = ServiceResult.completed (pairIssues db apartment_id house_no) ∧
    (∀ r ∈ (AdminApp.provide_service db apartment_id house_no).1.maintenance,
      r.apartment_id = apartment_id → r.house_no = house_no → r.status = some "Completed") ∧
    (∀ t ∈ (AdminApp.provide_service db apartment_id house_no).1.tenants,
      t.house_no = house_no → t.due_amount = some (dueBefore + 100)) ∧
    AdminApp.provide_service (AdminApp.provide_service db apartment_id house_no).1
        apartment_id house_no
      = ((AdminApp.provide_service db apartment_id house_no).1,
         ServiceResult.alreadyCompleted) ∧
    ServiceResult.alreadyCompleted ≠ ServiceResult.noComplaint ∧
    ServiceResult.alreadyCompleted ≠ ServiceResult.error := by
  obtain ⟨r, hr, hr1, hr2, hr3⟩ := hopen
  have hchk : AdminApp.check_complaint db apartment_id house_no = true :=
    check_complaint_true_of_pair_mem ⟨r, hr, hr1, hr2⟩
  have hinc : AdminApp.incomplete_complaint db apartment_id house_no = true := by
    unfold AdminApp.incomplete_complaint
    rw [decide_eq_true_iff, List.length_pos]
    refine List.ne_nil_of_mem (a := r) (List.mem_filter.mpr ⟨hr, ?_⟩)
    simp [hr1, hr2, hr3]
  have hissues : (pairIssues db apartment_id house_no).isEmpty = false := by
    have hmem : r.issue_description ∈ pairIssues db apartment_id house_no := by
      unfold pairIssues
      exact List.mem_map_of_mem _ (List.mem_filter.mpr ⟨hr, by simp [hr1, hr2]⟩)
    cases hI : (pairIssues db apartment_id house_no).isEmpty
    · rfl
    · rw [List.isEmpty_iff] at hI
      rw [hI] at hmem
      cases hmem
  have hred : AdminApp.provide_service db apartment_id house_no
      = (addServiceFee (completeMaintenance db apartment_id house_no) house_no,
         ServiceResult.completed (pairIssues db apartment_id house_no)) := by
    unfold AdminApp.provide_service
    rw [hchk, hinc]
    simp [hissues]
  have hdue' : ∀ t ∈ (addServiceFee (completeMaintenance db apartment_id house_no)
      house_no).tenants, t.house_no = house_no → t.due_amount = some (dueBefore + 100) := by
    intro t ht hth
    simp only [addServiceFee, completeMaintenance, List.mem_map] at ht
    obtain ⟨t1, ht1, heq⟩ := ht
    by_cases hc : t1.house_no = house_no
    · rw [if_pos hc] at heq
      rw [← heq, hdue t1 ht1 hc]
      rfl
    · rw [if_neg hc] at heq
      rw [← heq] at hth
      exact absurd hth hc
  have hpair2 : ∃ r2 ∈ (addServiceFee (completeMaintenance db apartment_id house_no)
      house_no).maintenance, r2.apartment_id = apartment_id ∧ r2.house_no = house_no := by
    refine ⟨if r.apartment_id = apartment_id ∧ r.house_no = house_no then
        { r with status := some "Completed" } else r, ?_, ?_⟩
    · simp only [addServiceFee, completeMaintenance]
      exact List.mem_map_of_mem _ hr
    · rw [if_pos ⟨hr1, hr2⟩]
      exact ⟨hr1, hr2⟩
  have hsecond : AdminApp.provide_service
      (addServiceFee (completeMaintenance db apartment_id house_no) house_no)
      apartment_id house_no
      = (addServiceFee (completeMaintenance db apartment_id house_no) house_no,
         ServiceResult.alreadyCompleted) := by
    have hchk2 := check_complaint_true_of_pair_mem hpair2
    have hinc2 := incomplete_false_of_all_completed
      (completed_after_service db apartment_id house_no)
    unfold AdminApp.provide_service
    rw [hchk2, hinc2]
    simp
  rw [hred]
  exact ⟨rfl, completed_after_service db apartment_id house_no, hdue', hsecond,
    by decide, by decide⟩

/-- A store with tenant H5 owing 60 and one open complaint on (A5, H5),
used to witness C6. -/
def dbC6 : DB := ⟨[], [⟨"H5", "Femi", "800", 5, "2023-09-09", some 60⟩], [],
  [⟨"A5", "H5", "no heating", 2, some "open"⟩], []⟩

/-- Witness for C6 at the concrete store `dbC6`. -/
theorem c6_complete_maintenance_service_witness :
    (∃ r ∈ dbC6.maintenance, r.apartment_id = "A5" ∧ r.house_no = "H5" ∧
      sqlNe r.status "Completed" = true) ∧
    (AdminApp.provide_service dbC6 "A5" "H5").2
      = ServiceResult.completed (pairIssues dbC6 "A5" "H5") :=
  ⟨by decide,
   (c6_complete_maintenance_service dbC6 "A5" "H5" 60 (by decide) (by decide) (by decide)).1⟩

/-! ## Transactional atomicity (C5) -/

/-- C5: RecordPayment and CompleteMaintenanceService are each all-or-nothing:
for every starting state and every failure oracle, the committed state
after the operation is either the untouched starting state (any failure
inside the operation rolls back every pending write) or exactly the state
of the fully successful operation (the single commit applies both writes). -/
theorem c5_payment_and_service_atomic (db : DB) (failsP failsS : Nat → Bool)
    (house_no payment_date payment_method : String) (amount_paid : Int)
    (apartment_id service_house : String) :
    ((TenantApp.make_payment_steps (Conn.fromDB db) failsP house_no payment_date amount_paid
        payment_method).1.committed = db ∨
     (TenantApp.make_payment_steps (Conn.fromDB db) failsP house_no payment_date amount_paid
        payment_method).1.committed
       = TenantApp.make_payment db house_no payment_date amount_paid payment_method) ∧
    ((AdminApp.provide_service_steps (Conn.fromDB db) failsS apartment_id
        service_house).1.committed = db ∨
     (AdminApp.provide_service_steps (Conn.fromDB db) failsS apartment_id
        service_house).1.committed
       = (AdminApp.provide_service db apartment_id service_house).1) := by
  constructor
  · by_cases h0 : failsP 0
    · left
      simp [TenantApp.make_payment_steps, h0, Conn.fromDB, Conn.rollback]
    · cases hf : db.tenants.find? (fun t => decide (t.house_no = house_no)) with
      | none =>
        left
        simp [TenantApp.make_payment_steps, h0, Conn.fromDB, hf]
      | some u =>
        by_cases h1 : failsP 1
        · left
          simp [TenantApp.make_payment_steps, h0, Conn.fromDB, hf, h1, Conn.rollback]
        · by_cases h2 : failsP 2
          · left
            simp [TenantApp.make_payment_steps, h0, Conn.fromDB, hf, h1, h2, Conn.rollback]
          · right
            simp [TenantApp.make_payment_steps, h0, Conn.fromDB, hf, h1, h2, Conn.commit,
              TenantApp.make_payment]
  · by_cases h0 : failsS 0
    · left
      simp [AdminApp.provide_service_steps, AdminApp.check_complaint_run, h0, Conn.fromDB]
    · by_cases hchk : AdminApp.check_complaint db apartment_id service_house = true
      · by_cases h1 : failsS 1
        · left
          simp [AdminApp.provide_service_steps, AdminApp.check_complaint_run,
            AdminApp.incomplete_complaint_run, h0, h1, hchk, Conn.fromDB]
        · by_cases hinc : AdminApp.incomplete_complaint db apartment_id service_house = true
          · by_cases h2 : failsS 2
            · left
              simp [AdminApp.provide_service_steps, AdminApp.check_complaint_run,
                AdminApp.incomplete_complaint_run, h0, h1, h2, hchk, hinc, Conn.fromDB,
                Conn.rollback]
            · cases hemp : (pairIssues db apartment_id service_house).isEmpty
              · by_cases h3 : failsS 3
                · left
                  simp [AdminApp.provide_service_steps, AdminApp.check_complaint_run,
                    AdminApp.incomplete_complaint_run, h0, h1, h2, h3, hchk, hinc, hemp,
                    Conn.fromDB, Conn.rollback]
                · by_cases h4 : failsS 4
                  · left
                    simp [AdminApp.provide_service_steps, AdminApp.check_complaint_run,
                      AdminApp.incomplete_complaint_run, h0, h1, h2, h3, h4, hchk, hinc, hemp,
                      Conn.fromDB, Conn.rollback]
                  · right
                    simp [AdminApp.provide_service_steps, AdminApp.check_complaint_run,
                      AdminApp.incomplete_complaint_run, AdminApp.provide_service, h0, h1, h2,
                      h3, h4, hchk, hinc, hemp, Conn.fromDB, Conn.commit]
              · left
                simp [AdminApp.provide_service_steps, AdminApp.check_complaint_run,
                  AdminApp.incomplete_complaint_run, h0, h1, h2, hchk, hinc, hemp,
                  Conn.fromDB]
          · left
            simp [AdminApp.provide_service_steps, AdminApp.check_complaint_run,
              AdminApp.incomplete_complaint_run, h0, h1, hchk, hinc, Conn.fromDB]
      · left
        simp [AdminApp.provide_service_steps, AdminApp.check_complaint_run, h0, hchk,
          Conn.fromDB]
